import Mathlib

/-!
Verification of `src/randlava.py` (lava-lamp entropy-to-hash pipeline).

The script is embedded shallowly:
* frames are nested lists of `Nat` samples (`uint8` values),
* `numpy.array2string` (the only serializer the script uses, called with
  `separator=""` and numpy's default print options `threshold=1000`,
  `edgeitems=3`, `linewidth=75`) is modelled executably,
* the generator `generate_secure_hash` is modelled as a function from the
  sequence of camera read results (and a cancellation point) to the trace of
  yielded digests, displayed crops, release calls and exit kind,
* the external `whirlpool` module is modelled by an executable function with
  the real interface (64-byte digest, lowercase hex rendering); no theorem
  below depends on concrete digest values of the real compression function.
-/

set_option maxRecDepth 1000000

namespace Randlava

/-- Python `str.rstrip` restricted to the whitespace characters that can occur
in the strings produced here (space and newline). -/
def rstrip (s : String) : String :=
  String.mk ((s.data.reverse.dropWhile (fun c => c = ' ' || c = '\n')).reverse)

/-- A camera frame (or cropped region): rows of pixels, each pixel a list of
channel samples, every sample a `uint8` value embedded as `Nat`. -/
abbrev Frame := List (List (List Nat))

/-- Size of an `ndarray`: the total number of scalar samples. -/
def np_size (a : Frame) : Nat :=
  (a.map (fun row => (row.map List.length).sum)).sum

/-- The shape `(rows, cols, channels)` of a rectangular frame, `none` if the
nested lists are ragged (a real `ndarray` is always rectangular). -/
def dims (a : Frame) : Option (Nat × Nat × Nat) :=
  let c := (a.head?.map List.length).getD 0
  let ch := ((a.head?.bind List.head?).map List.length).getD 0
  if a.all (fun row => row.length = c && row.all (fun px => px.length = ch))
  then some (a.length, c, ch) else none

/-- One axis of numpy `_leading_trailing`: keep the first and last `edge`
entries when the axis is longer than `2*edge`, otherwise keep everything. -/
def ltList {α : Type} (edge : Nat) (l : List α) : List α :=
  if 2 * edge < l.length then l.take edge ++ l.drop (l.length - edge) else l

/-- The numpy `_leading_trailing` selection with `edgeitems = 3`: the sub-array of displayed
entries of a summarized array. -/
def leadingTrailing (a : Frame) : Frame :=
  (ltList 3 a).map (fun row => (ltList 3 row).map (fun px => ltList 3 px))

/-- Width of the decimal rendering of a sample (`len(str(x))`). -/
def intWidth (n : Nat) : Nat := (toString n).length

/-- All samples of a frame in row-major, channel-major order. -/
def flatSamples (a : Frame) : List Nat := a.flatten.flatten

/-- Column width used by numpy's integer formatter: the widest decimal
rendering among the data handed to the formatter. -/
def dataWidth (a : Frame) : Nat := ((flatSamples a).map intWidth).foldl max 0

/-- The numpy integer formatter: decimal digits right-justified to width `wd`. -/
def fmtInt (wd : Nat) (n : Nat) : String :=
  let s := toString n
  String.mk (List.replicate (wd - s.length) ' ') ++ s

/-- The numpy `_extendLine` step: append `word` to the current `line`, wrapping (with
`rstrip` of the finished line) when the line would exceed `width`, except when
the line holds nothing beyond the hanging indent yet. -/
def extLine (width : Nat) (hang : String) (acc : String × String) (word : String) :
    String × String :=
  if acc.2.length + word.length > width && hang.length < acc.2.length then
    (acc.1 ++ rstrip acc.2 ++ "\n", hang ++ word)
  else (acc.1, acc.2 ++ word)

/-- Emit the words of the last axis: every word but the last is followed by the
separator, and each word goes through `extLine`. -/
def joinWords (width : Nat) (hang sep : String) :
    (String × String) → List String → String × String
  | acc, [] => acc
  | acc, [word] => extLine width hang acc word
  | acc, word :: rest =>
      let a2 := extLine width hang acc word
      joinWords width hang sep (a2.1, a2.2 ++ sep) rest

/-- Innermost axis (the channel axis) of numpy `_formatArray`: the formatted
samples — summarized to the first and last three with `"..."` in between when
`summar` is set and the axis is longer than six — joined by the separator with
line wrapping. -/
def fmtInner (wd : Nat) (sep : String) (summar : Bool) (hang : String) (curr : Nat)
    (l : List Nat) : String :=
  let showSum := summar && decide (6 < l.length)
  let words := if showSum
    then (l.take 3).map (fmtInt wd) ++ ("..." :: (l.drop (l.length - 3)).map (fmtInt wd))
    else l.map (fmtInt wd)
  let elemW := if showSum then curr - max (rstrip sep).length 1 else curr - 1
  let res := joinWords elemW hang sep ("", hang) words
  "[" ++ (res.1 ++ res.2).drop hang.length ++ "]"

/-- Middle axis (the column axis) of numpy `_formatArray`: one line per pixel,
lines separated by `separator.rstrip()` plus one newline and the hanging
indent, summarized like the innermost axis. -/
def fmtMiddle (wd : Nat) (sep : String) (summar : Bool) (hang : String) (curr : Nat)
    (p : List (List Nat)) : String :=
  let showSum := summar && decide (6 < p.length)
  let inner := fun (px : List Nat) => fmtInner wd sep summar (hang ++ " ") (curr - 1) px
  let parts := if showSum
    then (p.take 3).map inner ++ ("..." :: (p.drop (p.length - 3)).map inner)
    else p.map inner
  let lineSep := rstrip sep ++ "\n"
  "[" ++ String.intercalate (lineSep ++ hang) parts ++ "]"

/-- Outermost axis (the row axis) of numpy `_formatArray`: like the middle axis
but with two newlines between entries. -/
def fmtOuter (wd : Nat) (sep : String) (summar : Bool) (hang : String) (curr : Nat)
    (a : Frame) : String :=
  let showSum := summar && decide (6 < a.length)
  let middle := fun (row : List (List Nat)) => fmtMiddle wd sep summar (hang ++ " ") (curr - 1) row
  let parts := if showSum
    then (a.take 3).map middle ++ ("..." :: (a.drop (a.length - 3)).map middle)
    else a.map middle
  let lineSep := rstrip sep ++ "\n\n"
  "[" ++ String.intercalate (lineSep ++ hang) parts ++ "]"

/-- Model of `numpy.array2string(a, separator=sep)` on a three-dimensional
integer array under the default print options: `threshold=1000`, `edgeitems=3`,
`linewidth=75`, empty arrays render as `"[]"`, arrays with more than 1000
samples are summarized, and the formatter width is computed from the displayed
(leading/trailing) data only. -/
def np_array2string (a : Frame) (sep : String) : String :=
  if np_size a = 0 then "[]"
  else
    let summar := decide (1000 < np_size a)
    let data := if summar then leadingTrailing a else a
    let wd := dataWidth data
    fmtOuter wd sep summar " " 75 a

/-- Function `img_to_string` (src/randlava.py lines 16-18):
`np.array2string(img, separator="")`. -/
def img_to_string (img : Frame) : String := np_array2string img ""

/-- Function `crop_frame` (src/randlava.py lines 12-13): `img[100:900, 200:350]`.
Python basic slicing clamps to the available extent and never raises. -/
def crop_frame (img : Frame) : Frame :=
  ((img.drop 100).take 800).map (fun row => (row.drop 200).take 150)

/-- Python `s.encode("utf-8")` as a byte list. All strings hashed by this program are
ASCII (digits, spaces, brackets, dots and newlines from `np.array2string`), on
which UTF-8 bytes coincide with the code points. -/
def utf8Encode (s : String) : List Nat := s.data.map Char.toNat

/-- Mixing core of the model of the external `whirlpool` module: one output
byte lane folded over the whole input. Executable stand-in for the real
compression function — the interface (every input byte influences each output
byte; 64-byte output) is what the theorems below rely on, never a concrete
digest value of the real algorithm. -/
def wpMix (i : Nat) (data : List Nat) : Nat :=
  data.foldl (fun a b => (a * 131 + b + 1) % 4294967291) (i * 2654435761 % 4294967291 + 1)

/-- Model of the external `whirlpool` module's digest: Whirlpool is a fixed
512-bit (64-byte) hash, so the model returns exactly 64 bytes. -/
def whirlpoolBytes (data : List Nat) : List Nat :=
  (List.range 64).map (fun i => wpMix i data % 256)

/-- The sixteen lowercase hexadecimal digits. -/
def hexDigits : List Char := "0123456789abcdef".data

/-- One lowercase hexadecimal digit. -/
def hexChar (n : Nat) : Char := hexDigits.getD n '0'

/-- Rendering of `hexdigest()`: two lowercase hexadecimal characters per digest byte. -/
def bytesToHex (bs : List Nat) : String :=
  String.mk (bs.flatMap (fun b => [hexChar (b / 16), hexChar (b % 16)]))

/-- Function `hash` (src/randlava.py lines 6-8):
`whirlpool.new(s.encode("utf-8")).hexdigest()` — a fresh Whirlpool state over
the UTF-8 bytes of `s`, rendered as lowercase hex. The algorithm is baked in;
the caller passes nothing but `s`. -/
def hash (s : String) : String := bytesToHex (whirlpoolBytes (utf8Encode s))

/-- The digest the generator computes from one raw (uncropped) frame:
`hash(img_to_string(frame))`. -/
def pullDigest (f : Frame) : String := hash (img_to_string f)

/-- Model of the attribute surface of the external OpenCV binding `cv2` as the
script uses it: `namedWindow` (singular) exists, as do the other functions the
script calls; `namedWindows` is not an attribute of `cv2`, so looking it up
raises `AttributeError`. -/
def cv2_attrs : List String :=
  ["namedWindow", "VideoCapture", "imshow", "waitKey", "destroyAllWindows", "release", "read"]

/-- Python attribute lookup on the `cv2` module. -/
def cv2_hasattr (s : String) : Bool := cv2_attrs.contains s

/-- How a run of the generator ends (within the modelled horizon). -/
inductive ExitKind where
  /-- The read results provided so far are exhausted while the loop is still
  going: the generator is blocked in `cam.read()` waiting for the camera. -/
  | running
  /-- The generator function returned normally (`StopIteration`). -/
  | stopped
  /-- An exception of the named Python class escaped the generator. -/
  | errored (kind : String)
  /-- The caller closed the generator (`GeneratorExit` at a suspension point,
  e.g. on garbage collection after an operator interrupt). -/
  | cancelled
  /-- Python `exit(-1)` was called because the device could not be opened. -/
  | processExit
deriving DecidableEq

/-- Observable trace of one run of the generator. -/
structure Trace where
  /-- Digests delivered to the caller, in order. -/
  yields : List String
  /-- Images passed to `cv2.imshow`, in order. -/
  displayed : List Frame
  /-- Whether `cv2.VideoCapture(0)` acquired the device during the run. -/
  opened : Bool
  /-- Number of times `cam.release()` was executed. -/
  releases : Nat
  /-- How the run ended. -/
  exit : ExitKind
deriving DecidableEq

/-- The `while works:` loop of `generate_secure_hash` (src/randlava.py lines
29-40), entered with `works = True` and the frame `f` just read. Each
iteration crops `f` (the crop is only displayed), reads the next result, then
serializes and hashes whatever that read returned and yields the digest.

* `cv2.imshow` raises `cv2.error` on an empty image (OpenCV asserts
  `size.width>0 && size.height>0`), which matters when the camera frames are
  smaller than the crop rectangle;
* a failed read returns `(False, None)` and `np.array2string(None)` raises
  `AttributeError` (`None` has no `size`), so the release after the loop is
  never reached from inside the loop;
* `cancel = some k` models the caller closing the generator after consuming
  `k` more digests: `GeneratorExit` is raised at that yield and, with no
  `try/finally` in the source, `cam.release()` is skipped. -/
def runLoop : Frame → List (Option Frame) → Option Nat → Trace
  | f, [], _ =>
      if np_size (crop_frame f) = 0 then ⟨[], [], true, 0, .errored "cv2.error"⟩
      else ⟨[], [crop_frame f], true, 0, .running⟩
  | f, none :: _, _ =>
      if np_size (crop_frame f) = 0 then ⟨[], [], true, 0, .errored "cv2.error"⟩
      else ⟨[], [crop_frame f], true, 0, .errored "AttributeError"⟩
  | f, some f2 :: rest, cancel =>
      if np_size (crop_frame f) = 0 then ⟨[], [], true, 0, .errored "cv2.error"⟩
      else if cancel = some 1 then ⟨[pullDigest f2], [crop_frame f], true, 0, .cancelled⟩
      else
        let t := runLoop f2 rest (cancel.map (· - 1))
        ⟨pullDigest f2 :: t.yields, crop_frame f :: t.displayed, true, t.releases, t.exit⟩

/-- The body of `generate_secure_hash` from the `cv2.VideoCapture(0)` call
onward (src/randlava.py lines 22-40) — the statement before it always raises
(see `generate_secure_hash` below), so this models the generator as the rest
of the design intends it to run. `openOK` is whether the device can be
acquired, `reads` the successive results of `cam.read()` (`none` = failed
read), `cancel = some k` closes the generator after `k` delivered digests
(`some 0`: the generator object is discarded before its first pull, so no code
of the body ever runs). The device handle is released only on the path where
the very first read fails and the loop is skipped. -/
def runStream (openOK : Bool) (reads : List (Option Frame)) (cancel : Option Nat) : Trace :=
  if cancel = some 0 then ⟨[], [], false, 0, .cancelled⟩
  else if !openOK then ⟨[], [], false, 0, .processExit⟩
  else
    match reads with
    | [] => ⟨[], [], true, 0, .running⟩
    | none :: _ => ⟨[], [], true, 1, .stopped⟩
    | some f :: rest => runLoop f rest cancel

/-- Function `generate_secure_hash` (src/randlava.py lines 20-40) as a whole: its first
statement is `cv2.namedWindows("Cam")`, and `cv2` has no attribute
`namedWindows` (the OpenCV function is `namedWindow`), so the first pull
raises `AttributeError` before `cv2.VideoCapture(0)` runs. -/
def generate_secure_hash (openOK : Bool) (reads : List (Option Frame)) (cancel : Option Nat) :
    Trace :=
  if cancel = some 0 then ⟨[], [], false, 0, .cancelled⟩
  else if cv2_hasattr "namedWindows" then runStream openOK reads cancel
  else ⟨[], [], false, 0, .errored "AttributeError"⟩

/-- An execution context that the serialize-then-digest composition could in
principle depend on: which process run this is, the current time, the digests
already produced. `hash` builds a fresh Whirlpool state from `s` alone
(src/randlava.py line 7, no chaining, no counter) and `img_to_string` reads
nothing but `img` (line 17, print options fixed at numpy's defaults, never
modified by the program), so the model of either reads nothing from the
context — which is exactly what the source does. -/
structure ExecCtx where
  processRun : Nat
  monotonicTime : Nat
  priorDigests : List String

/-- Serialization `img_to_string` as executed in a context. -/
def img_to_stringInCtx (_ctx : ExecCtx) (img : Frame) : String := img_to_string img

/-- Digest `hash` as executed in a context. -/
def hashInCtx (_ctx : ExecCtx) (s : String) : String := hash s

/-! ## Concrete inputs used by the counterexamples -/

/-- A constant 101×201×3 camera frame of zeros: large enough that its crop is
the non-empty 1×1×3 region at row 100, column 200, and with more than 1000
samples, so the serialization of the raw frame is summarized. -/
def F0 : Frame := List.replicate 101 (List.replicate 201 [0, 0, 0])

/-- The frame `F0` with the single sample at row 100, column 200, channel 0
set to 9 — a position inside the crop rectangle and among the displayed edge
items of the raw frame's serialization. -/
def F9 : Frame :=
  F0.set 100 ((List.replicate 201 ([0, 0, 0] : List Nat)).set 200 [9, 0, 0])

/-- One row of a constant 103×312×3 frame. -/
def bigRow : List (List Nat) := List.replicate 312 [5, 5, 5]

/-- A constant 103×312×3 frame: its crop is a 3×112×3 region of 1008 samples,
just over numpy's summarization threshold of 1000. -/
def BigA : Frame := List.replicate 103 bigRow

/-- The frame `BigA` with the single sample at row 101, column 250, channel 1
set to 9: inside the crop rectangle (the crop differs from the crop of `BigA`
at row 1, column 50, channel 1), but outside the displayed edge items of the
summarized 3×112×3 crop. -/
def BigB : Frame := BigA.set 101 (bigRow.set 250 [5, 9, 5])

/-- A 899×349×1 frame: exactly one pixel short of the crop rectangle's bottom
edge (rows `100:900` need 900 rows) and of its right edge (columns `200:350`
need 350 columns). -/
def CF : Frame := List.replicate 899 (List.replicate 349 [7])

/-! ## Helper lemmas -/

/-- The loop body never executes `cam.release()`: every exit from inside the
`while` loop is an exception or a generator close, and the statement after the
loop is only reachable when the loop was never entered. -/
lemma runLoop_releases_eq_zero (reads : List (Option Frame)) :
    ∀ (f : Frame) (cancel : Option Nat), (runLoop f reads cancel).releases = 0 := by
  induction reads with
  | nil =>
    intro f cancel
    rw [runLoop]
    split <;> rfl
  | cons r rest ih =>
    intro f cancel
    rcases r with _ | f2
    · rw [runLoop]
      split <;> rfl
    · rw [runLoop]
      by_cases h0 : np_size (crop_frame f) = 0
      · rw [if_pos h0]
      · rw [if_neg h0]
        by_cases hc : cancel = some 1
        · rw [if_pos hc]
        · rw [if_neg hc]
          exact ih f2 (cancel.map (· - 1))

/-- Running the loop on successful reads and then one failed read: each read
frame is digested on the pull that read it, the failed read raises out of the
generator, and `cam.release()` never runs. -/
lemma runLoop_read_failure (good : List Frame) :
    ∀ (f : Frame) (rest : List (Option Frame)),
      (∀ g ∈ f :: good, np_size (crop_frame g) ≠ 0) →
      runLoop f (good.map some ++ none :: rest) none =
        ⟨good.map pullDigest, (f :: good).map crop_frame, true, 0,
          .errored "AttributeError"⟩ := by
  induction good with
  | nil =>
    intro f rest h
    rw [List.map_nil, List.nil_append, runLoop, if_neg (h f (by simp))]
    simp
  | cons g gs ih =>
    intro f rest h
    rw [List.map_cons, List.cons_append, runLoop, if_neg (h f (by simp))]
    rw [if_neg (by simp : ¬ (none : Option Nat) = some 1)]
    have hrec := ih g rest (fun x hx => h x (List.mem_cons_of_mem f hx))
    simp only [Option.map_none']
    rw [hrec]
    simp

/-! ## Claim theorems -/

/-- C7. On every invocation of `generate_secure_hash`, the first pull raises
`AttributeError` before any digest is produced and before the camera device is
opened: the generator body's first statement looks up the nonexistent `cv2`
attribute `namedWindows` (the OpenCV function is `namedWindow`). The only runs
this does not describe are those with no pull at all (`cancel = some 0`). -/
theorem first_pull_raises_attribute_error
    (openOK : Bool) (reads : List (Option Frame)) (cancel : Option Nat)
    (hc : cancel ≠ some 0) :
    generate_secure_hash openOK reads cancel =
      ⟨[], [], false, 0, .errored "AttributeError"⟩ := by
  unfold generate_secure_hash
  rw [if_neg hc]
  rw [show cv2_hasattr "namedWindows" = false from rfl]
  simp

/-- Witness for C7 at a concrete run. -/
theorem first_pull_raises_attribute_error_w :
    (some 3 : Option Nat) ≠ some 0 ∧
    generate_secure_hash true [some F0] (some 3) =
      ⟨[], [], false, 0, .errored "AttributeError"⟩ :=
  ⟨by decide, first_pull_raises_attribute_error true [some F0] (some 3) (by decide)⟩

/-- C8. The serialize-then-digest composition is a deterministic function of
the pixel matrix alone: its result is byte-for-byte independent of the
execution context (process run, time, previously produced digests), because
`hash` builds a fresh Whirlpool state from its string argument alone and
`img_to_string` reads nothing but the image (numpy print options are fixed at
their defaults and never modified by the program). -/
theorem digest_pipeline_context_independent
    (img : Frame) (c1 c2 : ExecCtx) :
    hashInCtx c1 (img_to_stringInCtx c1 img) = hashInCtx c2 (img_to_stringInCtx c2 img) ∧
    hashInCtx c1 (img_to_stringInCtx c1 img) = hash (img_to_string img) :=
  ⟨rfl, rfl⟩

/-- Every value `hexChar` produces is one of the sixteen lowercase
hexadecimal digits. -/
lemma hexChar_mem (n : Nat) : hexChar n ∈ hexDigits := by
  unfold hexChar
  rcases Nat.lt_or_ge n hexDigits.length with h | h
  · rw [List.getD_eq_getElem hexDigits '0' h]
    exact List.getElem_mem h
  · rw [List.getD_eq_default hexDigits '0' h]
    decide

/-- Two hex characters are emitted per digest byte. -/
lemma hexPairs_length (bs : List Nat) :
    (bs.flatMap (fun b => [hexChar (b / 16), hexChar (b % 16)])).length = 2 * bs.length := by
  induction bs with
  | nil => rfl
  | cons b t ih =>
    rw [List.flatMap_cons, List.length_append, ih]
    simp [Nat.mul_succ, Nat.add_comm]

/-- C10. For every input string, `hash` applies the one baked-in Whirlpool
digest (a fixed 512-bit = 64-byte wide-output hash; the caller passes nothing
but the data) and renders the result as a fixed-width lowercase hexadecimal
string of 128 characters. -/
theorem hash_is_fixed_width_hex_of_whirlpool (s : String) :
    hash s = bytesToHex (whirlpoolBytes (utf8Encode s)) ∧
    (whirlpoolBytes (utf8Encode s)).length = 64 ∧
    (∀ b ∈ whirlpoolBytes (utf8Encode s), b < 256) ∧
    (hash s).length = 128 ∧
    (∀ c ∈ (hash s).data, c ∈ hexDigits) := by
  refine ⟨rfl, by simp [whirlpoolBytes], ?_, ?_, ?_⟩
  · intro b hb
    simp only [whirlpoolBytes, List.mem_map] at hb
    obtain ⟨i, _, rfl⟩ := hb
    exact Nat.mod_lt _ (by norm_num)
  · show (String.mk ((whirlpoolBytes (utf8Encode s)).flatMap
      (fun b => [hexChar (b / 16), hexChar (b % 16)]))).length = 128
    have hmk : ∀ L : List Char, (String.mk L).length = L.length := fun _ => rfl
    rw [hmk, hexPairs_length]
    simp [whirlpoolBytes]
  · intro c hc
    have hc' : c ∈ (whirlpoolBytes (utf8Encode s)).flatMap
        (fun b => [hexChar (b / 16), hexChar (b % 16)]) := hc
    rw [List.mem_flatMap] at hc'
    obtain ⟨b, _, hb⟩ := hc'
    simp only [List.mem_cons, List.not_mem_nil, or_false] at hb
    rcases hb with rfl | rfl <;> exact hexChar_mem _

/-- C6 (amended). The generator's explicit `cam.release()` runs exactly once
when the very first read fails (the loop is skipped), and never otherwise: a
cancellation at a yield, a failed mid-run read (which raises from
`img_to_string(None)`) and an `exit(-1)` on an unopenable device all end the
run without executing the release. -/
theorem release_only_after_first_read_failure
    (openOK : Bool) (reads : List (Option Frame)) (cancel : Option Nat) :
    (runStream openOK reads cancel).releases =
      if openOK = true ∧ cancel ≠ some 0 ∧ reads.head? = some none then 1 else 0 := by
  unfold runStream
  by_cases hc : cancel = some 0
  · simp [hc]
  · rw [if_neg hc]
    cases openOK
    · simp
    · rcases reads with _ | ⟨r, rest⟩
      · simp [hc]
      · rcases r with _ | f
        · simp [hc]
        · simp [hc, runLoop_releases_eq_zero]

/-- C5 (amended). A failed read while the stream is running terminates the
digest sequence instead of being retried: the frames read before the failure
each yield their digest, then `np.array2string(None)` raises `AttributeError`
out of the generator; no retry happens, no later digest is delivered no matter
what further reads would have returned, and the device is not released by the
generator. -/
theorem read_failure_no_retry
    (f : Frame) (good : List Frame) (rest : List (Option Frame))
    (h : ∀ g ∈ f :: good, np_size (crop_frame g) ≠ 0) :
    runStream true ((f :: good).map some ++ none :: rest) none =
      ⟨good.map pullDigest, (f :: good).map crop_frame, true, 0,
        .errored "AttributeError"⟩ := by
  rw [List.map_cons, List.cons_append]
  unfold runStream
  rw [if_neg (by simp : ¬ (none : Option Nat) = some 0)]
  simpa using runLoop_read_failure good f rest h

/-- Witness for C5 (amended) at a concrete run: one good frame, then a failed
read, then a read that would have succeeded. -/
theorem read_failure_no_retry_w :
    (∀ g ∈ [F0], np_size (crop_frame g) ≠ 0) ∧
    runStream true ([F0].map some ++ none :: [some F9]) none =
      ⟨[], [crop_frame F0], true, 0, .errored "AttributeError"⟩ := by
  refine ⟨by decide, ?_⟩
  have := read_failure_no_retry F0 [] [some F9] (by decide)
  simpa using this

/-- C5 (counterexample). With reads success, failure, success, the stream dies
at the failure with no digest ever delivered, no retry of the subsequent good
read, and no release. -/
theorem read_failure_terminates_stream :
    (runStream true [some F0, none, some F0] none).yields = [] ∧
    (runStream true [some F0, none, some F0] none).exit = .errored "AttributeError" ∧
    (runStream true [some F0, none, some F0] none).releases = 0 :=
  ⟨by decide, by decide, by decide⟩

/-- C6 (counterexample). A session that opened the device, delivered one
digest and was then cancelled ends without the device handle ever being
released by the generator. -/
theorem cancellation_skips_release :
    (runStream true [some F0, some F9, some F0] (some 1)).opened = true ∧
    (runStream true [some F0, some F9, some F0] (some 1)).releases = 0 ∧
    (runStream true [some F0, some F9, some F0] (some 1)).exit = .cancelled ∧
    (runStream true [some F0, some F9, some F0] (some 1)).yields.length = 1 :=
  ⟨by decide, by decide, by decide, by decide⟩

/-- C1. The digest yielded on a pull is the hash of the serialization of the
raw, uncropped frame read by the in-loop `cam.read()` — not the hash of the
serialized crop of any frame: the crop computed from the previously read frame
is only displayed, and the freshly read frame overwrites it before
serialization. -/
theorem yielded_digest_is_uncropped_next_frame :
    (runStream true [some F0, some F9] none).yields = [hash (img_to_string F9)] ∧
    hash (img_to_string F9) ≠ hash (img_to_string (crop_frame F9)) ∧
    hash (img_to_string F9) ≠ hash (img_to_string (crop_frame F0)) :=
  ⟨by decide, by decide, by decide⟩

/-- C9. After two captured frames the stream has displayed both crops but
delivered only one digest — the digest of the second frame; the first
successfully captured frame never yields a digest. -/
theorem first_captured_frame_never_digested :
    (runStream true [some F0, some F9] none).displayed = [crop_frame F0, crop_frame F9] ∧
    (runStream true [some F0, some F9] none).yields = [pullDigest F9] ∧
    pullDigest F0 ≠ pullDigest F9 :=
  ⟨by decide, by decide, by decide⟩

/-- C3. Serialization loses interior samples: the crops of `BigA` and `BigB`
are well-formed 3×112×3 Regions (1008 samples, above numpy's summarization
threshold of 1000) of the same shape that differ in exactly the sample at row
1, column 50, channel 1, yet serialize to the identical byte string. -/
theorem serializer_drops_interior_samples :
    img_to_string (crop_frame BigB) = img_to_string (crop_frame BigA) ∧
    crop_frame BigB ≠ crop_frame BigA ∧
    dims (crop_frame BigA) = some (3, 112, 3) ∧
    dims (crop_frame BigB) = some (3, 112, 3) ∧
    np_size (crop_frame BigA) = 1008 ∧
    ((crop_frame BigB).getD 1 []).getD 50 [] = [5, 9, 5] ∧
    ((crop_frame BigA).getD 1 []).getD 50 [] = [5, 5, 5] :=
  ⟨by decide, by decide, by decide, by decide, by decide, by decide, by decide⟩

/-- C4. A single-pixel perturbation that leaves the Digest unchanged: the
crops of `BigB` and `BigA` differ in exactly one sample (row 1, column 50,
channel 1 — a position numpy's summarization does not display), and their
serializations, hence their digests, coincide. -/
theorem perturbed_interior_sample_same_digest :
    hash (img_to_string (crop_frame BigB)) = hash (img_to_string (crop_frame BigA)) ∧
    ((crop_frame BigB).getD 1 []).getD 50 [] ≠ ((crop_frame BigA).getD 1 []).getD 50 [] ∧
    dims (crop_frame BigB) = dims (crop_frame BigA) ∧
    np_size (crop_frame BigB) = np_size (crop_frame BigA) :=
  ⟨by decide, by decide, by decide, by decide⟩

/-- C2 (counterexample). On a frame exactly one pixel short of the crop
rectangle's bottom and right edges, extraction does not fail: it silently
returns the clamped 799×149 region; on a frame entirely inside the rectangle's
margins it returns the empty region. -/
theorem crop_out_of_bounds_clamps :
    crop_frame CF = List.replicate 799 (List.replicate 149 [7]) ∧
    (crop_frame CF).length = 799 ∧
    crop_frame [[[1]]] = ([] : Frame) :=
  ⟨by decide, by decide, by decide⟩

/-- C2 (amended). Extraction never fails and never reports a geometry
mismatch: on every frame it returns the silently clamped intersection of the
crop rectangle with the frame — `min 800 (rows - 100)` rows, each clamped to
`min 150 (cols - 200)` pixels, every retained pixel equal to the source pixel
at the offset position — so a frame smaller than the rectangle yields a
truncated (possibly empty) Region rather than an `OutOfBounds` error. -/
theorem crop_frame_clamps (img : Frame) :
    (crop_frame img).length = min 800 (img.length - 100) ∧
    (∀ i, i < (crop_frame img).length →
      ((crop_frame img).getD i []).length = min 150 ((img.getD (100 + i) []).length - 200)) ∧
    (∀ i j, i < 800 → j < 150 →
      ((crop_frame img).getD i []).getD j [] = (img.getD (100 + i) []).getD (200 + j) []) := by
  refine ⟨by simp [crop_frame], ?_, ?_⟩
  · intro i hi
    have hi8 : i < 800 := by
      simp only [crop_frame, List.length_map, List.length_take, List.length_drop] at hi
      omega
    rw [List.getD_eq_getElem?_getD]
    unfold crop_frame at hi ⊢
    rw [List.getElem?_map, List.getElem?_take, if_pos hi8, List.getElem?_drop]
    rcases h2 : img[100 + i]? with _ | row
    · exfalso
      have hlen : 100 + i < img.length := by
        simp only [List.length_map, List.length_take, List.length_drop] at hi
        omega
      rw [List.getElem?_eq_getElem hlen] at h2
      cases h2
    · have hr : img.getD (100 + i) [] = row := by
        rw [List.getD_eq_getElem?_getD, h2]
        rfl
      rw [hr]
      simp
  · intro i j hi hj
    have h3 : (crop_frame img).getD i [] = ((img.getD (100 + i) []).drop 200).take 150 := by
      rw [List.getD_eq_getElem?_getD]
      unfold crop_frame
      rw [List.getElem?_map, List.getElem?_take, if_pos hi, List.getElem?_drop]
      rcases h2 : img[100 + i]? with _ | row
      · simp [h2]
      · simp [h2]
    rw [h3, List.getD_eq_getElem?_getD, List.getElem?_take, if_pos hj, List.getElem?_drop,
      ← List.getD_eq_getElem?_getD]

/-- Witness for C2 (amended) on the frame one pixel short of each far edge. -/
theorem crop_frame_clamps_w :
    (crop_frame CF).length = min 800 (CF.length - 100) ∧
    ((crop_frame CF).getD 0 []).getD 0 [] = (CF.getD 100 []).getD 200 [] := by
  refine ⟨(crop_frame_clamps CF).1, ?_⟩
  have := (crop_frame_clamps CF).2.2 0 0 (by norm_num) (by norm_num)
  simpa using this

/-- Witness for C10 at a concrete string. -/
theorem hash_is_fixed_width_hex_of_whirlpool_w :
    (hash "x").length = 128 ∧ hash "x" = bytesToHex (whirlpoolBytes (utf8Encode "x")) :=
  ⟨(hash_is_fixed_width_hex_of_whirlpool "x").2.2.2.1,
   (hash_is_fixed_width_hex_of_whirlpool "x").1⟩

end Randlava
